import Mathlib

/-!
Shallow embedding of `util/svdgen/lib.py`, the register-model-to-SVD-tree
compiler, together with proofs about the claims of its specification.

Python dictionaries that describe registers are modelled as Lean structures
whose optional keys are `Option` fields; `dict.get` reads the `Option`
directly while `dict[...]` indexing is modelled as a lookup that fails with
a `keyError` when the field is absent, exactly as in Python.  `ET.Element`
trees are modelled by the inductive `XNode`.  Functions that can raise in
Python return `Except SvdError`.
-/

namespace Svdgen

/-- SVD register read/write access type, mirroring `pysvd.type.access`. -/
inductive SvdAccess where
  | read_only
  | read_write
  | write_only

/-- SVD action performed when a register is read, mirroring
`pysvd.type.readAction` (only `clear` is used by the source). -/
inductive SvdReadAction where
  | clear

/-- SVD modified-write semantics, mirroring `pysvd.type.modifiedWriteValues`. -/
inductive SvdMwv where
  | oneToClear
  | oneToSet
  | zeroToClear

/-- Text rendering of `pysvd.type.access` values, as `str()` produces when
the generated node text is written (pysvd enum values are their SVD
strings). -/
def access_text : SvdAccess → String
  | .read_only => "read-only"
  | .read_write => "read-write"
  | .write_only => "write-only"

/-- Text rendering of `pysvd.type.readAction` values. -/
def readAction_text : SvdReadAction → String
  | .clear => "clear"

/-- Text rendering of `pysvd.type.modifiedWriteValues` values. -/
def mwv_text : SvdMwv → String
  | .oneToClear => "oneToClear"
  | .oneToSet => "oneToSet"
  | .zeroToClear => "zeroToClear"

/-- A generated `bitinfo` triple `[bitmask, width, lsb]` as produced by
`reggen.validate`; `generate_bitrange` reads entries 1 and 2. -/
structure Bitinfo where
  bmask : Int
  width : Nat
  lsb : Nat

/-- One HJSON bit-field dictionary: required keys `name`, `desc`,
`bitinfo`; optional key `swaccess`. -/
structure Field where
  name : String
  desc : String
  bitinfo : Bitinfo
  swaccess : Option String

/-- One HJSON register dictionary: required keys `name` and `desc`;
`genoffset` is required by `generate_register` (direct indexing) but read
with `.get` by `read_genoffset`, so it is stored as an `Option` here and
the direct access is modelled as a fallible lookup. -/
structure Reg where
  name : String
  desc : String
  swaccess : Option String
  genoffset : Option Int
  fields : Option (List Field)
  genbitsused : Option Int
  genresval : Option Int
  genresmask : Option Int

/-- An HJSON window dictionary: the register-like keys (bundled as `reg`)
plus the repeat count `items` and the per-item `genvalidbits`. -/
structure Window where
  reg : Reg
  items : Nat
  genvalidbits : Nat

/-- One entry of a register list, tagged by the key on which
`generate_all_registers` dispatches: `reserved`/`skipto` entries,
`window` entries, `sameaddr` groups, `multireg` groups (whose dictionary
carries `name`, `desc` and the expanded `genregs` list), and plain
registers. -/
inductive RegEntry where
  | reserved (n : Nat)
  | skipto (n : Int)
  | window (w : Window)
  | sameaddr (regs : List RegEntry)
  | multireg (mname : String) (mdesc : String) (genregs : List RegEntry)
  | plain (r : Reg)

/-- A multireg dictionary, as consumed by `generate_cluster`. -/
structure Multireg where
  name : String
  desc : String
  genregs : List RegEntry

/-- Failures the compiler can raise.  `keyError k` models a Python
`KeyError` on key (or dictionary key value) `k`; `missingOffset e` models
the `SystemExit` raised by `read_genoffset`, whose message dumps the
offending entry (the entry itself is carried here); `nestedMultireg`
models the `SystemExit` for nested multiregs; `valueErrorEmptyMin` models
`min()` of an empty sequence; `attributeError` models the `AttributeError`
raised when `find('./name')` yields no usable node. -/
inductive SvdError where
  | keyError (k : String)
  | missingOffset (entry : RegEntry)
  | nestedMultireg
  | valueErrorEmptyMin
  | attributeError (what : String)

/-- An `xml.etree.ElementTree` node: an element with a tag, attributes,
optional text and a list of children, or a comment. -/
inductive XNode where
  | elem (tag : String) (attrib : List (String × String)) (text : Option String) (children : List XNode)
  | comment (text : String)

/-- Children of `svd_node` built from keyword arguments: each `(tag, v)`
with `v = some s` becomes a child leaf element with text `s`; pairs whose
value is `none` are skipped, exactly as `svd_node` ignores `None`. -/
def text_children : List (String × Option String) → List XNode
  | [] => []
  | (_, none) :: rest => text_children rest
  | (t, some v) :: rest => .elem t [] (some v) [] :: text_children rest

/-- Construction of a fresh SVD element from a tag name and keyword text
arguments, as `svd_node` does when its first argument is a string. -/
def svd_node (tag : String) (texts : List (String × Option String)) : XNode :=
  .elem tag [] none (text_children texts)

/-- Appending of extra child elements to a node, as `extend_node` (and
`svd_node` applied to an existing element) does. -/
def extend_node : XNode → List XNode → XNode
  | .elem t a txt c, es => .elem t a txt (c ++ es)
  | .comment s, _ => .comment s

/-- Child list of a node (comments have none). -/
def child_list : XNode → List XNode
  | .elem _ _ _ c => c
  | .comment _ => []

/-- Text of a node. -/
def node_text : XNode → Option String
  | .elem _ _ t _ => t
  | .comment t => some t

/-- First direct child element with the given tag, as `find('./tag')`. -/
def find_child (tag : String) : List XNode → Option XNode
  | [] => none
  | .elem t a txt c :: rest =>
    if t = tag then some (.elem t a txt c) else find_child tag rest
  | .comment _ :: rest => find_child tag rest

/-- Text of the first direct child element with the given tag. -/
def get_child_text (x : XNode) (tag : String) : Option String :=
  match find_child tag (child_list x) with
  | some n => node_text n
  | none => none

/-- Discriminator for successful results. -/
def is_ok {α : Type} : Except SvdError α → Bool
  | .ok _ => true
  | .error _ => false

/-- Discriminator for the nested-multireg failure. -/
def is_nested_err {α : Type} : Except SvdError α → Bool
  | .error .nestedMultireg => true
  | _ => false

/-- Discriminator for the offset-dump failure of `read_genoffset`. -/
def is_missing_offset_err {α : Type} : Except SvdError α → Bool
  | .error (.missingOffset _) => true
  | _ => false

/-- Failure kinds that can arise while reading a register entry's offset:
the structured dump or a bare key lookup failure. -/
def offset_scan_err_kind : SvdError → Bool
  | .missingOffset _ => true
  | .keyError _ => true
  | _ => false

/-- Discriminator for failures that can arise while reading a register
entry's offset: the structured dump or a bare key lookup failure. -/
def is_offset_scan_err {α : Type} : Except SvdError α → Bool
  | .error e => offset_scan_err_kind e
  | _ => false

/-- ASCII case folding of one character, mapping upper-case letters to
their lower-case code point and leaving everything else unchanged. -/
def char_fold (c : Char) : Nat :=
  if 65 ≤ c.toNat && c.toNat ≤ 90 then c.toNat + 32 else c.toNat

/-- Case-insensitive equality of character lists. -/
def chars_ci_eq : List Char → List Char → Bool
  | [], [] => true
  | a :: as, b :: bs => char_fold a == char_fold b && chars_ci_eq as bs
  | _, _ => false

/-- Case-insensitive string comparison, as `case_compare`; Python
`casefold` is modelled as ASCII case folding. -/
def case_compare (left right : String) : Bool :=
  chars_ci_eq left.toList right.toList

/-- Minimum of two integers, as Python `min` compares them pairwise. -/
def int_min (a b : Int) : Int :=
  if a ≤ b then a else b

/-- Lower-case hexadecimal digit for a value below 16, as a one-character
string. -/
def hex_digit (n : Nat) : String :=
  if n = 0 then "0" else if n = 1 then "1" else if n = 2 then "2"
  else if n = 3 then "3" else if n = 4 then "4" else if n = 5 then "5"
  else if n = 6 then "6" else if n = 7 then "7" else if n = 8 then "8"
  else if n = 9 then "9" else if n = 10 then "a" else if n = 11 then "b"
  else if n = 12 then "c" else if n = 13 then "d" else if n = 14 then "e"
  else "f"

/-- Hexadecimal digit accumulation; the first argument is fuel that the
wrapper instantiates with the number itself, which always suffices since
dividing by 16 shrinks faster than the fuel. -/
def nat_hex_go : Nat → Nat → String → String
  | 0, _, acc => acc
  | fuel + 1, n, acc =>
    if n = 0 then acc else nat_hex_go fuel (n / 16) (hex_digit (n % 16) ++ acc)

/-- Hexadecimal digit string of a natural number, without prefix. -/
def nat_hex (n : Nat) : String :=
  if n = 0 then "0" else nat_hex_go (n + 1) n ""

/-- Python `hex()` rendering of an integer: `0x...` with a leading minus
sign for negative values. -/
def pyHex (i : Int) : String :=
  if i < 0 then "-0x" ++ nat_hex (-i).toNat else "0x" ++ nat_hex i.toNat

/-- Conversion from the OpenTitan software access label (the value of the
`swaccess` key, `none` when absent) to the SVD
(access, readAction, modifiedWriteValues) triple, as `sw_access_modes`.
The Python dictionary lookup raises `KeyError` on any label outside the
table; that exception carries the offending label. -/
def sw_access_modes (swaccess : Option String) :
    Except SvdError (Option SvdAccess × Option SvdReadAction × Option SvdMwv) :=
  match swaccess with
  | none => .ok (none, none, none)
  | some s =>
    if s = "ro" then .ok (some .read_only, none, none)
    else if s = "rc" then .ok (some .read_only, some .clear, none)
    else if s = "rw" then .ok (some .read_write, none, none)
    else if s = "r0w1c" then .ok (some .write_only, none, some .oneToClear)
    else if s = "rw1s" then .ok (some .read_write, none, some .oneToSet)
    else if s = "rw1c" then .ok (some .read_write, none, some .oneToClear)
    else if s = "rw0c" then .ok (some .read_write, none, some .zeroToClear)
    else if s = "wo" then .ok (some .write_only, none, none)
    else .error (.keyError s)

/-- String labels that appear as keys of the `sw_access_modes` table (the
absent label, modelled by `none`, is the table's remaining key). -/
def defined_sw_labels : List String :=
  ["ro", "rc", "rw", "r0w1c", "rw1s", "rw1c", "rw0c", "wo"]

/-- Conversion of a `bitinfo` triple to `<bitRange>` text
`[lsb+width-1:lsb]`, as `generate_bitrange` (Python `%d` formatting of the
integers). -/
def generate_bitrange (b : Bitinfo) : String :=
  "[" ++ toString ((b.lsb : Int) + (b.width : Int) - 1) ++ ":" ++
    toString ((b.lsb : Int)) ++ "]"

/-- Conversion of an HJSON bit field to a `<field>` node, as
`generate_field`. -/
def generate_field (bits : Field) : Except SvdError XNode :=
  match sw_access_modes bits.swaccess with
  | .error e => .error e
  | .ok (access, read_action, modified_write_values) =>
    .ok (svd_node "field"
      [("name", some bits.name),
       ("description", some bits.desc),
       ("bitRange", some (generate_bitrange bits.bitinfo)),
       ("access", access.map access_text),
       ("readAction", read_action.map readAction_text),
       ("modifiedWriteValues", modified_write_values.map mwv_text)])

/-- Sequencing of a fallible function over a list, propagating the first
failure; models forcing a Python generator or `map` left to right. -/
def map_except {α β : Type} (f : α → Except SvdError β) : List α → Except SvdError (List β)
  | [] => .ok []
  | a :: rest =>
    match f a with
    | .error e => .error e
    | .ok b =>
      match map_except f rest with
      | .error e => .error e
      | .ok bs => .ok (b :: bs)

/-- Flattening condition of `generate_register`: a single field whose name
matches the register case-insensitively and whose lsb is zero. -/
def flatten_of (reg : Reg) : Bool :=
  match reg.fields with
  | some [f] => case_compare f.name reg.name && f.bitinfo.lsb == 0
  | _ => false

/-- The inner generator `generate_all_fields` of `generate_register`: an
empty result when flattening or when the `fields` key is absent, otherwise
one `<fields>` node holding one `<field>` node per field in input order. -/
def generate_all_fields (flatten : Bool) (fields : Option (List Field)) :
    Except SvdError (List XNode) :=
  match flatten, fields with
  | false, some fs =>
    match map_except generate_field fs with
    | .error e => .error e
    | .ok fns => .ok [extend_node (svd_node "fields" []) fns]
  | _, _ => .ok []

/-- Keyword text arguments of the `<register>` node built by
`generate_register`, in source order.  Note that `size` is stringified
directly (decimal) while the numeric pass-through attributes go through
`hex_or_none`. -/
def register_texts (reg : Reg) (base : Int) (genoffset : Int) (size : Option Nat)
    (access : Option SvdAccess) (read_action : Option SvdReadAction)
    (modified_write_values : Option SvdMwv) : List (String × Option String) :=
  [("name", some reg.name),
   ("description", some reg.desc),
   ("addressOffset", some (pyHex (genoffset - base))),
   ("size", size.map (fun n => toString n)),
   ("mask", reg.genbitsused.map pyHex),
   ("resetValue", reg.genresval.map pyHex),
   ("resetMask", reg.genresmask.map pyHex),
   ("access", access.map access_text),
   ("readAction", read_action.map readAction_text),
   ("modifiedWriteValues", modified_write_values.map mwv_text)]

/-- Size computed by `generate_register`: the single field's width when
flattening, absent otherwise. -/
def size_of_register (reg : Reg) : Option Nat :=
  if flatten_of reg then
    match reg.fields with
    | some (f :: _) => some f.bitinfo.width
    | _ => none
  else none

/-- Conversion of a standard register dictionary to a `<register>` node,
as `generate_register`: the flatten condition and `size` are computed
first, then `sw_access_modes(reg)` runs (it may raise), then the node is
built (direct indexing of `genoffset` may raise `KeyError`), and finally
the field nodes are generated and appended. -/
def generate_register (reg : Reg) (base : Int) : Except SvdError XNode :=
  let flatten := flatten_of reg
  let size : Option Nat := size_of_register reg
  match sw_access_modes reg.swaccess with
  | .error e => .error e
  | .ok (access, read_action, modified_write_values) =>
    match reg.genoffset with
    | none => .error (.keyError "genoffset")
    | some genoffset =>
      let register := svd_node "register"
        (register_texts reg base genoffset size access read_action modified_write_values)
      match generate_all_fields flatten reg.fields with
      | .error e => .error e
      | .ok fns => .ok (extend_node register fns)

/-- Character-list prefix test. -/
def starts_with : List Char → List Char → Bool
  | [], _ => true
  | _ :: _, [] => false
  | p :: ps, c :: cs => p == c && starts_with ps cs

/-- Character-list substring test. -/
def find_sub : List Char → List Char → Bool
  | pat, [] => starts_with pat []
  | pat, c :: rest => starts_with pat (c :: rest) || find_sub pat rest

/-- Substring test on strings, modelling `text.find(pat) >= 0`. -/
def str_contains (s pat : String) : Bool :=
  find_sub pat.toList s.toList

/-- Name adjustment of `generate_dim_register`: append the literal `%s`
indexing placeholder unless the text already contains it. -/
def append_pct_s (t : String) : String :=
  if str_contains t "%s" then t else t ++ "%s"

/-- Update of the first `name` child found by `find('./name')`, appending
`%s` to its text when needed; failing like Python when no `name` child
with text exists. -/
def fix_first_name : List XNode → Except SvdError (List XNode)
  | [] => .error (.attributeError "name")
  | .elem "name" a t c :: rest =>
    match t with
    | some txt => .ok (.elem "name" a (some (append_pct_s txt)) c :: rest)
    | none => .error (.attributeError "text")
  | x :: rest =>
    match fix_first_name rest with
    | .error e => .error e
    | .ok r => .ok (x :: r)

/-- Conversion of a window dictionary to a dimensioned `<register>` node,
as `generate_dim_register`: the inner register template is compiled as a
plain register, `dim` and `dimIncrement` (valid bits over 8, truncated)
children are appended after the existing children, and the register name
gains the `%s` placeholder when missing. -/
def generate_dim_register (w : Window) (base : Int) : Except SvdError XNode :=
  match generate_register w.reg base with
  | .error e => .error e
  | .ok regnode =>
    match extend_node regnode
        (text_children
          [("dim", some (toString w.items)),
           ("dimIncrement", some (pyHex ((w.genvalidbits / 8 : Nat) : Int)))]) with
    | .elem t a txt c =>
      match fix_first_name c with
      | .error e => .error e
      | .ok c2 => .ok (.elem t a txt c2)
    | .comment _ => .error (.attributeError "name")

/-- Offset of a register-like entry, as `read_genoffset`: the direct
`genoffset` key when present, else the `genoffset` inside a `window`
value (a direct indexing that raises `KeyError` when absent), else the
fatal dump of the entry. -/
def read_genoffset : RegEntry → Except SvdError Int
  | .window w =>
    match w.reg.genoffset with
    | some o => .ok o
    | none => .error (.keyError "genoffset")
  | .plain r =>
    match r.genoffset with
    | some o => .ok o
    | none => .error (.missingOffset (.plain r))
  | e => .error (.missingOffset e)

/-- Assembly of a `<cluster>` node from its parts. -/
def build_cluster (mname mdesc : String) (b : Int) (kids : List XNode) : XNode :=
  extend_node
    (svd_node "cluster"
      [("name", some mname),
       ("description", some mdesc),
       ("addressOffset", some (pyHex b))])
    kids

mutual

/-- Conversion of a register list, as `generate_all_registers`: each entry
contributes its nodes in order; the first failure aborts the run. -/
def generate_all_registers : List RegEntry → Int → Except SvdError (List XNode)
  | [], _ => .ok []
  | reg :: rest, base =>
    match generate_entry reg base with
    | .error e => .error e
    | .ok ns =>
      match generate_all_registers rest base with
      | .error e => .error e
      | .ok more => .ok (ns ++ more)

/-- Dispatch on one register-list entry, following the membership tests of
`generate_all_registers` in source order: reserved/skip entries yield
nothing, windows one dimensioned register, same-address groups recurse at
the same base, multiregs build a cluster (the body of `generate_cluster`,
inlined here to close the mutual recursion), and anything else is a plain
register. -/
def generate_entry : RegEntry → Int → Except SvdError (List XNode)
  | .reserved _, _ => .ok []
  | .skipto _, _ => .ok []
  | .window w, base =>
    match generate_dim_register w base with
    | .error e => .error e
    | .ok n => .ok [n]
  | .sameaddr rs, base => generate_all_registers rs base
  | .multireg mname mdesc genregs, base =>
    if base ≠ 0 then .error .nestedMultireg
    else
      match map_except read_genoffset genregs with
      | .error e => .error e
      | .ok [] => .error .valueErrorEmptyMin
      | .ok (o :: os) =>
        let b := os.foldl int_min o
        match generate_all_registers genregs b with
        | .error e => .error e
        | .ok kids => .ok [build_cluster mname mdesc b kids]
  | .plain r, base =>
    match generate_register r base with
    | .error e => .error e
    | .ok n => .ok [n]

end

/-- Conversion of a multireg dictionary to a `<cluster>` node, as
`generate_cluster`: refuse a non-zero incoming base, take the minimum of
the member offsets (Python `min`, which fails on an empty sequence and
propagates `read_genoffset` failures), then compile every member relative
to that minimum. -/
def generate_cluster (multi : Multireg) (base : Int) : Except SvdError XNode :=
  if base ≠ 0 then .error .nestedMultireg
  else
    match map_except read_genoffset multi.genregs with
    | .error e => .error e
    | .ok [] => .error .valueErrorEmptyMin
    | .ok (o :: os) =>
      let b := os.foldl int_min o
      match generate_all_registers multi.genregs b with
      | .error e => .error e
      | .ok kids => .ok (build_cluster multi.name multi.desc b kids)

/-- One interrupt descriptor of a peripheral's `interrupt_list`. -/
structure Irq where
  name : String

/-- Numbered `<interrupt>` nodes, as the `enumerate` loop of
`generate_all_interrupts`. -/
def interrupts_from (num : Nat) : List Irq → List XNode
  | [] => []
  | irq :: rest =>
    svd_node "interrupt"
      [("name", some irq.name), ("value", some (toString num))] ::
      interrupts_from (num + 1) rest

/-- Conversion of an optional interrupt list to `<interrupt>` nodes, as
`generate_all_interrupts`: nothing when the list is absent, else one node
per interrupt carrying its name and 0-based position. -/
def generate_all_interrupts : Option (List Irq) → List XNode
  | none => []
  | some irqs => interrupts_from 0 irqs

/-- One module of the top-level configuration: its name, declared
peripheral type and base address (the address is stringified verbatim into
the output, so it is kept as a string here). -/
structure TopModule where
  name : String
  mtype : String
  base_addr : String

/-- One peripheral type definition: optional interrupt list and the
register list. -/
structure Ip where
  interrupt_list : Option (List Irq)
  registers : List RegEntry

/-- The top-level configuration: device name, bus width in bits and the
module list. -/
structure TopCfg where
  name : String
  datawidth : Nat
  modules : List TopModule

/-- Dictionary lookup of a peripheral definition by type name, raising
`KeyError` like `ips[module['type']]`. -/
def lookup_ip : List (String × Ip) → String → Except SvdError Ip
  | [], t => .error (.keyError t)
  | (k, ip) :: rest, t => if k = t then .ok ip else lookup_ip rest t

/-- Conversion of one module and its peripheral definition to a
`<peripheral>` node, as `generate_peripheral`: name and base address pass
through, interrupts come first, then the `<registers>` container compiled
at base 0, then a trailing comment naming the module. -/
def generate_peripheral (m : TopModule) (ip : Ip) : Except SvdError XNode :=
  match generate_all_registers ip.registers 0 with
  | .error e => .error e
  | .ok regnodes =>
    let registers := extend_node (svd_node "registers" []) regnodes
    let peripheral := svd_node "peripheral"
      [("name", some m.name), ("baseAddress", some m.base_addr)]
    .ok (extend_node peripheral
      (generate_all_interrupts ip.interrupt_list ++
        [registers, .comment ("end of " ++ m.name)]))

/-- Peripheral nodes for every module of the module list, in order. -/
def peripherals_map : List TopModule → List (String × Ip) → Except SvdError (List XNode)
  | [], _ => .ok []
  | m :: rest, ips =>
    match lookup_ip ips m.mtype with
    | .error e => .error e
    | .ok ip =>
      match generate_peripheral m ip with
      | .error e => .error e
      | .ok p =>
        match peripherals_map rest ips with
        | .error e => .error e
        | .ok more => .ok (p :: more)

/-- Conversion of the module list to the `<peripherals>` container, as
`generate_peripherals`. -/
def generate_peripherals (modules : List TopModule) (ips : List (String × Ip)) :
    Except SvdError XNode :=
  match peripherals_map modules ips with
  | .error e => .error e
  | .ok ns => .ok (extend_node (svd_node "peripherals" []) ns)

/-- The hardcoded `<cpu>` node of `generate_cpu`. -/
def generate_cpu : XNode :=
  svd_node "cpu"
    [("name", some "other"),
     ("endian", some "little"),
     ("revision", some "0"),
     ("mpuPresent", some "false"),
     ("fpuPresent", some "false"),
     ("nvicPrioBits", some "0"),
     ("vendorSystickConfig", some "false")]

/-- Assembly of the `<device>` root from the top-level configuration, as
`generate_device`: fixed schema attributes and header texts, the `<cpu>`
node and the `<peripherals>` container. -/
def generate_device (top : TopCfg) (ips : List (String × Ip))
    (version description : String) : Except SvdError XNode :=
  let device := XNode.elem "device"
    [("schemaVersion", "1.1"),
     ("xmlns:xs", "http://www.w3.org/2001/XMLSchema-instance"),
     ("xs:noNamespaceSchemaLocation", "CMSIS-SVD.xsd")]
    none
    (text_children
      [("vendor", some "lowRISC"),
       ("name", some top.name),
       ("version", some version),
       ("description", some description),
       ("width", some (toString top.datawidth)),
       ("size", some (toString top.datawidth)),
       ("addressUnitBits", some "8")])
  match generate_peripherals top.modules ips with
  | .error e => .error e
  | .ok ps => .ok (extend_node device [generate_cpu, ps])

mutual

/-- Check that no node of the tree carries both text content and child
elements — the shape `indent_tree` relies on. -/
def tree_ok : XNode → Bool
  | .elem _ _ t c => (t.isNone || c.isEmpty) && trees_ok c
  | .comment _ => true

/-- Check `tree_ok` on every tree of a list. -/
def trees_ok : List XNode → Bool
  | [] => true
  | x :: rest => tree_ok x && trees_ok rest

end

/-- A node is a leaf in the specification's sense: it has text content
and no child elements (a comment is a leaf carrying its text). -/
def is_leaf : XNode → Bool
  | .elem _ _ (some _) [] => true
  | .comment _ => true
  | _ => false

/-- A node is a parent in the specification's sense: it has child
elements and no text content. -/
def is_parent : XNode → Bool
  | .elem _ _ none (_ :: _) => true
  | _ => false

mutual

/-- Check that every node of the tree is either a leaf or a parent. -/
def tree_lp : XNode → Bool
  | .elem t a txt c =>
    (is_leaf (.elem t a txt c) || is_parent (.elem t a txt c)) && trees_lp c
  | .comment _ => true

/-- Check `tree_lp` on every tree of a list. -/
def trees_lp : List XNode → Bool
  | [] => true
  | x :: rest => tree_lp x && trees_lp rest

end

/-- A register entry is simple when it is a plain register or a window
carrying an offset; these are the entry kinds that compile to exactly one
register node each. -/
def is_simple_entry : RegEntry → Bool
  | .plain r => r.genoffset.isSome
  | .window w => w.reg.genoffset.isSome
  | _ => false

/-- Absolute offset of a simple entry (zero as a default elsewhere). -/
def entry_abs_offset : RegEntry → Int
  | .plain r => r.genoffset.getD 0
  | .window w => w.reg.genoffset.getD 0
  | _ => 0

/-- Minimum absolute member offset of a multireg, as Python
`min(map(read_genoffset, genregs))` computes it on simple members. -/
def cluster_min (multi : Multireg) : Int :=
  match multi.genregs.map entry_abs_offset with
  | [] => 0
  | o :: os => os.foldl int_min o

/-- A register entry from which neither a direct `genoffset` nor a
`window` value can be read. -/
def offsetless : RegEntry → Bool
  | .plain r => r.genoffset.isNone
  | .window _ => false
  | _ => true

/-- Check whether a register list contains a multireg entry. -/
def mem_has_multireg : List RegEntry → Bool
  | [] => false
  | .multireg _ _ _ :: _ => true
  | _ :: rest => mem_has_multireg rest

/-- Concrete single field `foo` of width 8 at lsb 0, matching the
flatten example of the specification. -/
def fieldC2 : Field := ⟨"foo", "field desc", ⟨255, 8, 0⟩, none⟩

/-- Concrete register `FOO` holding only `fieldC2`. -/
def regC2 : Reg := ⟨"FOO", "reg desc", none, some 0, some [fieldC2], none, none, none⟩

/-- Concrete plain register at absolute offset 0x10. -/
def regC3a : Reg := ⟨"A", "da", none, some 16, none, none, none, none⟩

/-- Concrete plain register at absolute offset 0x14. -/
def regC3b : Reg := ⟨"B", "db", none, some 20, none, none, none, none⟩

/-- Concrete plain register at absolute offset 0x18. -/
def regC3c : Reg := ⟨"C", "dc", none, some 24, none, none, none, none⟩

/-- Concrete multireg with members at 0x10, 0x14 and 0x18. -/
def multiC3 : Multireg := ⟨"M", "dm", [.plain regC3a, .plain regC3b, .plain regC3c]⟩

/-- Cluster node compiled from `multiC3` at the top level. -/
def nodeC3 : XNode :=
  match generate_cluster multiC3 0 with
  | .ok n => n
  | .error _ => .comment ""

/-- Concrete multireg whose second member is itself a multireg. -/
def multiC4 : Multireg :=
  ⟨"OUTER", "od", [.plain regC3a, .multireg "INNER" "id" [.plain regC3b]]⟩

/-- Concrete window whose template name lacks the `%s` placeholder. -/
def winC6 : Window :=
  ⟨⟨"WIN", "wd", some "rw", some 1024, none, none, none, none⟩, 32, 32⟩

/-- Concrete window whose template name already contains `%s`. -/
def winC6b : Window :=
  ⟨⟨"W%sX", "wd", none, some 0, none, none, none, none⟩, 4, 32⟩

/-- Dimensioned register node compiled from `winC6`. -/
def nodeC6 : XNode :=
  match generate_dim_register winC6 0 with
  | .ok n => n
  | .error _ => .comment ""

/-- Concrete register with an unknown software-access label. -/
def regC7a : Reg := ⟨"OWNER1", "d", some "bogus", some 0, none, none, none, none⟩

/-- Concrete register differing from `regC7a` only in its name. -/
def regC7b : Reg := ⟨"OWNER2", "d", some "bogus", some 0, none, none, none, none⟩

/-- Concrete plain register with no `genoffset`. -/
def regC8 : Reg := ⟨"R8", "d8", none, none, none, none, none, none⟩

/-- Concrete register whose `fields` key holds an empty list. -/
def regC9 : Reg := ⟨"R9", "d9", none, some 0, some [], none, none, none⟩

/-- Concrete single field of `regC10a`, labelled `rw`. -/
def fieldC10a : Field := ⟨"r10", "fd", ⟨15, 4, 0⟩, some "rw"⟩

/-- Concrete single field differing from `fieldC10a` only in its label,
which is not even a recognized one. -/
def fieldC10b : Field := ⟨"r10", "fd", ⟨15, 4, 0⟩, some "bogus"⟩

/-- Concrete flattened register holding `fieldC10a`. -/
def regC10a : Reg := ⟨"R10", "d10", some "ro", some 8, some [fieldC10a], none, none, none⟩

/-- Concrete flattened register holding `fieldC10b`. -/
def regC10b : Reg := ⟨"R10", "d10", some "ro", some 8, some [fieldC10b], none, none, none⟩

/-- Concrete peripheral definition holding one interrupt and `regC9`. -/
def ipC5 : Ip := ⟨some [⟨"irq0"⟩], [.plain regC9]⟩

/-- Concrete top-level configuration with one module of type `uart`. -/
def topC5 : TopCfg := ⟨"chip", 32, [⟨"uart0", "uart", "0x40000000"⟩]⟩

/-- Device tree assembled from `topC5` and `ipC5`. -/
def treeC5 : XNode :=
  match generate_device topC5 [("uart", ipC5)] "1.0" "svd of chip" with
  | .ok t => t
  | .error _ => .comment ""

/-- Register node compiled from `regC2`. -/
def nodeC2 : XNode :=
  match generate_register regC2 0 with
  | .ok n => n
  | .error _ => .comment ""

/-- Register node compiled from `regC9`. -/
def nodeC9 : XNode :=
  match generate_register regC9 0 with
  | .ok n => n
  | .error _ => .comment ""

/-- Register node compiled from `regC3a` at the top level. -/
def nodeC3aTop : XNode :=
  match generate_register regC3a 0 with
  | .ok n => n
  | .error _ => .comment ""

/-- Register node compiled from `regC10a`. -/
def nodeC10 : XNode :=
  match generate_register regC10a 0 with
  | .ok n => n
  | .error _ => .comment ""

theorem sw_access_modes_unknown (s : String) (hs : s ∉ defined_sw_labels) :
    sw_access_modes (some s) = .error (.keyError s) := by
  simp only [defined_sw_labels, List.mem_cons, List.not_mem_nil, or_false] at hs
  push_neg at hs
  obtain ⟨h1, h2, h3, h4, h5, h6, h7, h8⟩ := hs
  simp [sw_access_modes, h1, h2, h3, h4, h5, h6, h7, h8]

/-- C1: the software-access mapping is total over exactly the labels of
the table in §4.1 — the eight string labels together with the absent
label — and returns the table's fixed triples; in particular `r0w1c` maps
to (write-only, unset, one-clears) and an absent label to a fully unset
triple.  Any other label fails (with the label as the lookup key). -/
theorem C1_access_mode_table :
    (∀ s, s ∈ defined_sw_labels → is_ok (sw_access_modes (some s)) = true) ∧
    (∀ s, s ∉ defined_sw_labels → sw_access_modes (some s) = .error (.keyError s)) ∧
    sw_access_modes none = .ok (none, none, none) ∧
    sw_access_modes (some "ro") = .ok (some .read_only, none, none) ∧
    sw_access_modes (some "rc") = .ok (some .read_only, some .clear, none) ∧
    sw_access_modes (some "rw") = .ok (some .read_write, none, none) ∧
    sw_access_modes (some "r0w1c") = .ok (some .write_only, none, some .oneToClear) ∧
    sw_access_modes (some "rw1s") = .ok (some .read_write, none, some .oneToSet) ∧
    sw_access_modes (some "rw1c") = .ok (some .read_write, none, some .oneToClear) ∧
    sw_access_modes (some "rw0c") = .ok (some .read_write, none, some .zeroToClear) ∧
    sw_access_modes (some "wo") = .ok (some .write_only, none, none) := by
  refine ⟨?_, sw_access_modes_unknown, rfl, rfl, rfl, rfl, rfl, rfl, rfl, rfl, rfl⟩
  intro s hs
  simp only [defined_sw_labels, List.mem_cons, List.not_mem_nil, or_false] at hs
  rcases hs with h | h | h | h | h | h | h | h <;> subst h <;> rfl

/-- Witness for C1 at concrete labels. -/
theorem C1_access_mode_table_witness :
    sw_access_modes (some "xyz") = .error (.keyError "xyz") ∧
    is_ok (sw_access_modes (some "r0w1c")) = true :=
  ⟨C1_access_mode_table.2.1 "xyz" (by decide),
   C1_access_mode_table.1 "r0w1c" (by decide)⟩

/-- C7 (amended): a register or field carrying a software-access label
outside the table fails with the bare key-lookup error that names the
offending label; the owning register or field is not part of the error. -/
theorem C7_unknown_label_keyerror :
    (∀ (reg : Reg) (base : Int) (s : String), reg.swaccess = some s →
      s ∉ defined_sw_labels → generate_register reg base = .error (.keyError s)) ∧
    (∀ (f : Field) (s : String), f.swaccess = some s →
      s ∉ defined_sw_labels → generate_field f = .error (.keyError s)) := by
  constructor
  · intro reg base s hsw hs
    simp [generate_register, hsw, sw_access_modes_unknown s hs]
  · intro f s hsw hs
    simp [generate_field, hsw, sw_access_modes_unknown s hs]

/-- Witness for C7 at a concrete register and field. -/
theorem C7_unknown_label_keyerror_witness :
    generate_register regC7a 0 = .error (.keyError "bogus") ∧
    generate_field fieldC10b = .error (.keyError "bogus") :=
  ⟨C7_unknown_label_keyerror.1 regC7a 0 "bogus" rfl (by decide),
   C7_unknown_label_keyerror.2 fieldC10b "bogus" rfl (by decide)⟩

/-- Counterexample for C7 as stated: two registers that differ only in
their name produce the very same error value for the same unknown label,
so the error cannot name the owning register. -/
theorem C7_counterexample :
    generate_register regC7a 0 = .error (.keyError "bogus") ∧
    generate_register regC7b 0 = .error (.keyError "bogus") ∧
    regC7a.name ≠ regC7b.name :=
  ⟨rfl, rfl, by decide⟩

/-- C8 (amended): an entry with neither a direct offset nor a window value
fails through `read_genoffset` with the fatal error that carries the
entry's structured contents; a window without an inner offset, and a plain
register compiled directly, instead fail with a bare key-lookup error on
`genoffset` that carries no dump. -/
theorem C8_missing_offset_errors :
    (∀ e : RegEntry, offsetless e = true →
      read_genoffset e = .error (.missingOffset e)) ∧
    (∀ w : Window, w.reg.genoffset = none →
      read_genoffset (.window w) = .error (.keyError "genoffset")) ∧
    (∀ (r : Reg) (b : Int), r.genoffset = none →
      is_ok (sw_access_modes r.swaccess) = true →
      generate_register r b = .error (.keyError "genoffset")) := by
  refine ⟨?_, ?_, ?_⟩
  · intro e he
    cases e with
    | plain r =>
      simp only [offsetless, Option.isNone_iff_eq_none] at he
      simp [read_genoffset, he]
    | window w => simp [offsetless] at he
    | reserved n => rfl
    | skipto n => rfl
    | sameaddr rs => rfl
    | multireg mn md gr => rfl
  · intro w hw
    simp [read_genoffset, hw]
  · intro r b hoff hsw
    match hswa : sw_access_modes r.swaccess with
    | .error e => simp [is_ok, hswa] at hsw
    | .ok (acc, ra, mwv) => simp [generate_register, hswa, hoff]

/-- Witness for C8 at concrete entries. -/
theorem C8_missing_offset_errors_witness :
    read_genoffset (.plain regC8) = .error (.missingOffset (.plain regC8)) ∧
    read_genoffset (.window ⟨⟨"W", "d", none, none, none, none, none, none⟩, 4, 32⟩) =
      .error (.keyError "genoffset") ∧
    generate_register regC8 0 = .error (.keyError "genoffset") :=
  ⟨C8_missing_offset_errors.1 (.plain regC8) rfl,
   C8_missing_offset_errors.2.1 ⟨⟨"W", "d", none, none, none, none, none, none⟩, 4, 32⟩ rfl,
   C8_missing_offset_errors.2.2 regC8 0 rfl rfl⟩

/-- Counterexample for C8 as stated: a plain top-level register without an
offset fails with the key-lookup error, not with the structured-dump
error the claim requires. -/
theorem C8_counterexample :
    generate_all_registers [.plain regC8] 0 = .error (.keyError "genoffset") ∧
    is_missing_offset_err (generate_all_registers [.plain regC8] 0) = false :=
  ⟨rfl, rfl⟩

theorem text_children_append (a b : List (String × Option String)) :
    text_children (a ++ b) = text_children a ++ text_children b := by
  induction a with
  | nil => simp [text_children]
  | cons p rest ih =>
    obtain ⟨t, v⟩ := p
    cases v <;> simp [text_children, ih]

theorem find_child_skip_text (tag : String) (l : List (String × Option String))
    (rest : List XNode) (h : ∀ p ∈ l, p.1 ≠ tag) :
    find_child tag (text_children l ++ rest) = find_child tag rest := by
  induction l with
  | nil => simp [text_children]
  | cons p tl ih =>
    obtain ⟨t, v⟩ := p
    have ht : t ≠ tag := h (t, v) (List.mem_cons_self _ _)
    have h' : ∀ q ∈ tl, q.1 ≠ tag := fun q hq => h q (List.mem_cons_of_mem _ hq)
    cases v with
    | none => simpa [text_children] using ih h'
    | some s => simp [text_children, find_child, ht, ih h']

theorem not_mem_map_fst {α β : Type} (l : List (α × β)) (tag : α)
    (h : tag ∉ l.map Prod.fst) : ∀ p ∈ l, p.1 ≠ tag := by
  intro p hp he
  exact h (he ▸ List.mem_map_of_mem Prod.fst hp)

theorem find_child_opt (tag : String) (pre post : List (String × Option String))
    (v : Option String) (rest : List XNode)
    (hpre : ∀ p ∈ pre, p.1 ≠ tag) (hpost : ∀ p ∈ post, p.1 ≠ tag)
    (hrest : find_child tag rest = none) :
    find_child tag (text_children (pre ++ (tag, v) :: post) ++ rest) =
      v.map (fun s => .elem tag [] (some s) []) := by
  rw [text_children_append, List.append_assoc, find_child_skip_text tag pre _ hpre]
  cases v with
  | none => simpa [text_children] using (find_child_skip_text tag post rest hpost).trans hrest
  | some s => simp [text_children, find_child]

theorem map_except_length {α β : Type} (f : α → Except SvdError β) :
    ∀ (l : List α) (bs : List β), map_except f l = .ok bs → bs.length = l.length
  | [], bs, h => by
    simp only [map_except, Except.ok.injEq] at h
    simp [← h]
  | a :: rest, bs, h => by
    revert h
    simp only [map_except]
    cases hf : f a with
    | error e => intro h; exact absurd h (by simp)
    | ok b =>
      cases hr : map_except f rest with
      | error e => intro h; exact absurd h (by simp)
      | ok bs' =>
        intro h
        simp only [Except.ok.injEq] at h
        subst h
        simp [map_except_length f rest bs' hr]

theorem generate_all_fields_find (fl : Bool) (fs : Option (List Field)) (fns : List XNode)
    (h : generate_all_fields fl fs = .ok fns) (t : String) (ht : t ≠ "fields") :
    find_child t fns = none := by
  match fl, fs with
  | false, some l =>
    rw [show generate_all_fields false (some l) =
        (match map_except generate_field l with
         | .error e => .error e
         | .ok fns' => .ok [extend_node (svd_node "fields" []) fns']) from rfl] at h
    cases hm : map_except generate_field l with
    | error e => rw [hm] at h; simp at h
    | ok fns' =>
      rw [hm] at h
      simp only [Except.ok.injEq] at h
      subst h
      simp [extend_node, svd_node, text_children, find_child, Ne.symm ht]
  | true, none =>
    rw [show generate_all_fields true none = Except.ok [] from rfl] at h
    simp only [Except.ok.injEq] at h
    subst h
    rfl
  | true, some l =>
    rw [show generate_all_fields true (some l) = Except.ok [] from rfl] at h
    simp only [Except.ok.injEq] at h
    subst h
    rfl
  | false, none =>
    rw [show generate_all_fields false none = Except.ok [] from rfl] at h
    simp only [Except.ok.injEq] at h
    subst h
    rfl

theorem generate_register_ok (reg : Reg) (base : Int) (node : XNode)
    (h : generate_register reg base = .ok node) :
    ∃ o acc ra mwv fns,
      reg.genoffset = some o ∧
      sw_access_modes reg.swaccess = .ok (acc, ra, mwv) ∧
      generate_all_fields (flatten_of reg) reg.fields = .ok fns ∧
      node = .elem "register" [] none
        (text_children
          (register_texts reg base o (size_of_register reg) acc ra mwv) ++ fns) := by
  rcases hsw : sw_access_modes reg.swaccess with e | ⟨acc, ra, mwv⟩
  · simp only [generate_register, hsw] at h
    simp at h
  · simp only [generate_register, hsw] at h
    rcases hoff : reg.genoffset with _ | o
    · rw [hoff] at h
      simp at h
    · rw [hoff] at h
      rcases hfs : generate_all_fields (flatten_of reg) reg.fields with e | fns
      · rw [hfs] at h
        simp at h
      · rw [hfs] at h
        simp only [Except.ok.injEq] at h
        exact ⟨o, acc, ra, mwv, fns, rfl, rfl, rfl, h.symm⟩

/-- C2 (amended): a register with exactly one field whose name matches the
register case-insensitively at lsb 0 is flattened: the compiled node has
no fields child and carries a `size` child equal to the field's width
rendered as a decimal string (`str()`, not `hex()`). -/
theorem C2_flatten_size (reg : Reg) (base : Int) (node : XNode) (f : Field)
    (hf : reg.fields = some [f])
    (hn : case_compare f.name reg.name = true)
    (hl : f.bitinfo.lsb = 0)
    (h : generate_register reg base = .ok node) :
    find_child "fields" (child_list node) = none ∧
    get_child_text node "size" = some (toString f.bitinfo.width) := by
  have hfl : flatten_of reg = true := by
    simp [flatten_of, hf, hn, hl]
  obtain ⟨o, acc, ra, mwv, fns, hoff, hsw, hfs, hnode⟩ := generate_register_ok reg base node h
  rw [hfl, hf] at hfs
  rw [show generate_all_fields true (some [f]) = Except.ok [] from rfl] at hfs
  simp only [Except.ok.injEq] at hfs
  subst hfs
  have hsz : size_of_register reg = some f.bitinfo.width := by
    simp [size_of_register, hfl, hf]
  subst hnode
  constructor
  · simp only [child_list, List.append_nil]
    have := find_child_skip_text "fields"
      (register_texts reg base o (size_of_register reg) acc ra mwv) []
      (not_mem_map_fst _ _ (by simp [register_texts]))
    simpa [find_child] using this
  · simp only [get_child_text, child_list, List.append_nil, hsz]
    simp [register_texts, text_children, find_child, node_text]

/-- Witness for C2 (amended) at the specification's own example. -/
theorem C2_flatten_size_witness :
    find_child "fields" (child_list nodeC2) = none ∧
    get_child_text nodeC2 "size" = some "8" := by
  have h := C2_flatten_size regC2 0 nodeC2 fieldC2 rfl rfl rfl rfl
  exact ⟨h.1, h.2⟩

/-- Counterexample for C2 as stated: register `FOO` with one field `foo`
of width 8 at lsb 0 compiles to a `size` child reading `8` — the decimal
`str()` rendering — not the hexadecimal `0x8` rendering the claim
requires. -/
theorem C2_counterexample :
    generate_register regC2 0 = .ok nodeC2 ∧
    get_child_text nodeC2 "size" = some "8" ∧
    some "8" ≠ some "0x8" ∧
    pyHex 8 = "0x8" :=
  ⟨rfl, rfl, by decide, rfl⟩

/-- C9 (amended): for a non-flattened register the compiled node carries a
fields container exactly when the `fields` key is present — including a
present-but-empty list, which yields an empty container — and the
container holds one field node per input field, in input order. -/
theorem C9_fields_container (reg : Reg) (base : Int) (node : XNode)
    (h : generate_register reg base = .ok node)
    (hnf : flatten_of reg = false) :
    (reg.fields = none → find_child "fields" (child_list node) = none) ∧
    (∀ l fns, reg.fields = some l → map_except generate_field l = .ok fns →
      find_child "fields" (child_list node) = some (.elem "fields" [] none fns) ∧
      fns.length = l.length) := by
  obtain ⟨o, acc, ra, mwv, fns0, hoff, hsw, hfs, hnode⟩ := generate_register_ok reg base node h
  rw [hnf] at hfs
  subst hnode
  constructor
  · intro hnone
    rw [hnone] at hfs
    rw [show generate_all_fields false none = Except.ok [] from rfl] at hfs
    simp only [Except.ok.injEq] at hfs
    subst hfs
    simp only [child_list, List.append_nil]
    have := find_child_skip_text "fields"
      (register_texts reg base o (size_of_register reg) acc ra mwv) []
      (not_mem_map_fst _ _ (by simp [register_texts]))
    simpa [find_child] using this
  · intro l fns hl hm
    rw [hl] at hfs
    rw [show generate_all_fields false (some l) =
        (match map_except generate_field l with
         | .error e => .error e
         | .ok fns' => .ok [extend_node (svd_node "fields" []) fns']) from rfl,
      hm] at hfs
    simp only [Except.ok.injEq] at hfs
    subst hfs
    refine ⟨?_, map_except_length generate_field l fns hm⟩
    simp only [child_list]
    rw [find_child_skip_text "fields"
      (register_texts reg base o (size_of_register reg) acc ra mwv) _
      (not_mem_map_fst _ _ (by simp [register_texts]))]
    simp [extend_node, svd_node, text_children, find_child]

/-- Witness for C9 (amended): a register without a `fields` key has no
container; a register with a present list gets one. -/
theorem C9_fields_container_witness :
    find_child "fields" (child_list nodeC3aTop) = none ∧
    find_child "fields" (child_list nodeC9) = some (.elem "fields" [] none []) := by
  have h1 := C9_fields_container regC3a 0 nodeC3aTop rfl rfl
  have h2 := C9_fields_container regC9 0 nodeC9 rfl rfl
  exact ⟨h1.1 rfl, (h2.2 [] [] rfl rfl).1⟩

/-- Counterexample for C9 as stated: a register whose field list is
present but empty still gets a fields container (an empty one), though
the claim requires a container exactly when the list is non-empty. -/
theorem C9_counterexample :
    generate_register regC9 0 = .ok nodeC9 ∧
    regC9.fields = some [] ∧
    find_child "fields" (child_list nodeC9) = some (.elem "fields" [] none []) :=
  ⟨rfl, rfl, rfl⟩

/-- C10: the access, readAction and modifiedWriteValues children of a
compiled register derive solely from the register's own software-access
label, and in the flattened case the single field's label and description
are never consulted: two registers whose single fields differ only in
those components compile identically. -/
theorem C10_register_label_only :
    (∀ (reg : Reg) (base : Int) (node : XNode) acc ra mwv,
      sw_access_modes reg.swaccess = .ok (acc, ra, mwv) →
      generate_register reg base = .ok node →
      get_child_text node "access" = acc.map access_text ∧
      get_child_text node "readAction" = ra.map readAction_text ∧
      get_child_text node "modifiedWriteValues" = mwv.map mwv_text) ∧
    (∀ (r1 r2 : Reg) (f1 f2 : Field) (base : Int),
      r1.fields = some [f1] → r2.fields = some [f2] →
      r1.name = r2.name → r1.desc = r2.desc → r1.swaccess = r2.swaccess →
      r1.genoffset = r2.genoffset → r1.genbitsused = r2.genbitsused →
      r1.genresval = r2.genresval → r1.genresmask = r2.genresmask →
      f1.name = f2.name → f1.bitinfo = f2.bitinfo →
      flatten_of r1 = true →
      generate_register r1 base = generate_register r2 base) := by
  constructor
  · intro reg base node acc ra mwv hsw h
    obtain ⟨o, acc', ra', mwv', fns, hoff, hsw', hfs, hnode⟩ := generate_register_ok reg base node h
    rw [hsw] at hsw'
    simp only [Except.ok.injEq, Prod.mk.injEq] at hsw'
    obtain ⟨ha, hr, hm⟩ := hsw'
    subst ha; subst hr; subst hm
    subst hnode
    have hrest : ∀ t, t ≠ "fields" → find_child t fns = none :=
      fun t ht => generate_all_fields_find _ _ _ hfs t ht
    refine ⟨?_, ?_, ?_⟩
    · simp only [get_child_text, child_list]
      rw [show register_texts reg base o (size_of_register reg) acc ra mwv =
          [("name", some reg.name), ("description", some reg.desc),
           ("addressOffset", some (pyHex (o - base))),
           ("size", (size_of_register reg).map (fun n => toString n)),
           ("mask", reg.genbitsused.map pyHex),
           ("resetValue", reg.genresval.map pyHex),
           ("resetMask", reg.genresmask.map pyHex)] ++
          ("access", acc.map access_text) ::
          [("readAction", ra.map readAction_text),
           ("modifiedWriteValues", mwv.map mwv_text)] from rfl]
      rw [find_child_opt "access" _ _ _ fns
        (not_mem_map_fst _ _ (by simp)) (not_mem_map_fst _ _ (by simp))
        (hrest "access" (by decide))]
      cases acc <;> simp [node_text]
    · simp only [get_child_text, child_list]
      rw [show register_texts reg base o (size_of_register reg) acc ra mwv =
          [("name", some reg.name), ("description", some reg.desc),
           ("addressOffset", some (pyHex (o - base))),
           ("size", (size_of_register reg).map (fun n => toString n)),
           ("mask", reg.genbitsused.map pyHex),
           ("resetValue", reg.genresval.map pyHex),
           ("resetMask", reg.genresmask.map pyHex),
           ("access", acc.map access_text)] ++
          ("readAction", ra.map readAction_text) ::
          [("modifiedWriteValues", mwv.map mwv_text)] from rfl]
      rw [find_child_opt "readAction" _ _ _ fns
        (not_mem_map_fst _ _ (by simp)) (not_mem_map_fst _ _ (by simp))
        (hrest "readAction" (by decide))]
      cases ra <;> simp [node_text]
    · simp only [get_child_text, child_list]
      rw [show register_texts reg base o (size_of_register reg) acc ra mwv =
          [("name", some reg.name), ("description", some reg.desc),
           ("addressOffset", some (pyHex (o - base))),
           ("size", (size_of_register reg).map (fun n => toString n)),
           ("mask", reg.genbitsused.map pyHex),
           ("resetValue", reg.genresval.map pyHex),
           ("resetMask", reg.genresmask.map pyHex),
           ("access", acc.map access_text),
           ("readAction", ra.map readAction_text)] ++
          ("modifiedWriteValues", mwv.map mwv_text) :: [] from rfl]
      rw [find_child_opt "modifiedWriteValues" _ _ _ fns
        (not_mem_map_fst _ _ (by simp)) (not_mem_map_fst _ _ (by simp))
        (hrest "modifiedWriteValues" (by decide))]
      cases mwv <;> simp [node_text]
  · intro r1 r2 f1 f2 base h1 h2 hn hd hsw hoff hbu hrv hrm hfn hfb hfl
    have e1 : flatten_of r1 = (case_compare f1.name r1.name && (f1.bitinfo.lsb == 0)) := by
      simp [flatten_of, h1]
    have e2 : flatten_of r2 = (case_compare f2.name r2.name && (f2.bitinfo.lsb == 0)) := by
      simp [flatten_of, h2]
    have hcc : flatten_of r2 = true := by
      rw [e2, ← hfn, ← hn, ← hfb]
      rw [e1] at hfl
      exact hfl
    have hsz : size_of_register r1 = size_of_register r2 := by
      simp [size_of_register, hfl, hcc, h1, h2, hfb]
    have htx : ∀ (o : Int) (sz : Option Nat) acc ra mwv,
        register_texts r1 base o sz acc ra mwv = register_texts r2 base o sz acc ra mwv := by
      intro o sz acc ra mwv
      simp [register_texts, hn, hd, hbu, hrv, hrm]
    have hgf : generate_all_fields (flatten_of r1) r1.fields =
        generate_all_fields (flatten_of r2) r2.fields := by
      rw [hfl, hcc, h1, h2]
      rfl
    simp only [generate_register, hsw, hoff, hsz, hgf, htx]

/-- Witness for C10 at concrete registers: the register label `ro` drives
the access child, and changing the flattened field's label (even to an
unrecognized one) leaves the output untouched. -/
theorem C10_register_label_only_witness :
    get_child_text nodeC10 "access" = some "read-only" ∧
    generate_register regC10a 0 = generate_register regC10b 0 := by
  have ha := C10_register_label_only.1 regC10a 0 nodeC10 (some .read_only) none none rfl rfl
  have hb := C10_register_label_only.2 regC10a regC10b fieldC10a fieldC10b 0
    rfl rfl rfl rfl rfl rfl rfl rfl rfl rfl rfl rfl
  exact ⟨ha.1, hb⟩

theorem generate_dim_register_ok (w : Window) (base : Int) (node : XNode)
    (h : generate_dim_register w base = .ok node) :
    ∃ o acc ra mwv fns,
      w.reg.genoffset = some o ∧
      sw_access_modes w.reg.swaccess = .ok (acc, ra, mwv) ∧
      generate_all_fields (flatten_of w.reg) w.reg.fields = .ok fns ∧
      node = .elem "register" [] none
        (.elem "name" [] (some (append_pct_s w.reg.name)) [] ::
          ((text_children
            ((register_texts w.reg base o (size_of_register w.reg) acc ra mwv).tail) ++
            fns) ++
            text_children
              [("dim", some (toString w.items)),
               ("dimIncrement", some (pyHex ((w.genvalidbits / 8 : Nat) : Int)))])) := by
  rcases hgr : generate_register w.reg base with e | regnode
  · simp only [generate_dim_register, hgr] at h
    simp at h
  · obtain ⟨o, acc, ra, mwv, fns, hoff, hsw, hfs, hnode⟩ :=
      generate_register_ok w.reg base regnode hgr
    subst hnode
    simp only [generate_dim_register, hgr] at h
    refine ⟨o, acc, ra, mwv, fns, hoff, hsw, hfs, ?_⟩
    rw [show (match extend_node
        (XNode.elem "register" [] none
          (text_children
            (register_texts w.reg base o (size_of_register w.reg) acc ra mwv) ++ fns))
        (text_children
          [("dim", some (toString w.items)),
           ("dimIncrement", some (pyHex ((w.genvalidbits / 8 : Nat) : Int)))]) with
      | XNode.elem t a txt c =>
        (match fix_first_name c with
         | .error e => Except.error e
         | .ok c2 => Except.ok (XNode.elem t a txt c2))
      | XNode.comment _ => Except.error (SvdError.attributeError "name")) =
      Except.ok (XNode.elem "register" [] none
        (XNode.elem "name" [] (some (append_pct_s w.reg.name)) [] ::
          ((text_children
            ((register_texts w.reg base o (size_of_register w.reg) acc ra mwv).tail) ++
            fns) ++
            text_children
              [("dim", some (toString w.items)),
               ("dimIncrement", some (pyHex ((w.genvalidbits / 8 : Nat) : Int)))])))
      from rfl] at h
    simp only [Except.ok.injEq] at h
    exact h.symm

theorem starts_with_self (l : List Char) : starts_with l l = true := by
  induction l with
  | nil => rfl
  | cons c cs ih => simp [starts_with, ih]

theorem find_sub_append_self (pat : List Char) :
    ∀ s : List Char, find_sub pat (s ++ pat) = true := by
  intro s
  induction s with
  | nil =>
    cases pat with
    | nil => rfl
    | cons c cs => simp [find_sub, starts_with_self]
  | cons c cs ih => simp [find_sub, ih]

theorem append_pct_s_contains (t : String) :
    str_contains (append_pct_s t) "%s" = true := by
  unfold append_pct_s
  cases hc : str_contains t "%s" with
  | true => simpa using hc
  | false =>
    simp only [Bool.false_eq_true, if_false]
    unfold str_contains
    have hd : (t ++ "%s").toList = t.toList ++ "%s".toList := by
      simp [String.toList, String.data_append]
    rw [hd]
    exact find_sub_append_self _ _

/-- C6: the dimensioned register node compiled from a window always has a
name containing the literal `%s` placeholder — unchanged when the
template name already contains it, with `%s` appended otherwise. -/
theorem C6_window_name_placeholder (w : Window) (base : Int) (node : XNode)
    (h : generate_dim_register w base = .ok node) :
    get_child_text node "name" = some (append_pct_s w.reg.name) ∧
    str_contains (append_pct_s w.reg.name) "%s" = true ∧
    (str_contains w.reg.name "%s" = true → append_pct_s w.reg.name = w.reg.name) := by
  obtain ⟨o, acc, ra, mwv, fns, hoff, hsw, hfs, hnode⟩ := generate_dim_register_ok w base node h
  subst hnode
  refine ⟨?_, append_pct_s_contains w.reg.name, ?_⟩
  · simp [get_child_text, child_list, find_child, node_text]
  · intro hc
    simp [append_pct_s, hc]

/-- Witness for C6 at a window whose name lacks the placeholder and at one
that already carries it. -/
theorem C6_window_name_placeholder_witness :
    get_child_text nodeC6 "name" = some "WIN%s" ∧
    str_contains "WIN%s" "%s" = true ∧
    append_pct_s "W%sX" = "W%sX" := by
  have h := C6_window_name_placeholder winC6 0 nodeC6 rfl
  have h2 := C6_window_name_placeholder winC6b 0
    (match generate_dim_register winC6b 0 with
      | .ok n => n
      | .error _ => .comment "") rfl
  exact ⟨h.1, h.2.1, h2.2.2 rfl⟩

theorem read_genoffset_simple (e : RegEntry) (hs : is_simple_entry e = true) :
    read_genoffset e = .ok (entry_abs_offset e) := by
  cases e with
  | plain r =>
    rcases hr : r.genoffset with _ | o
    · simp [is_simple_entry, hr] at hs
    · simp [read_genoffset, entry_abs_offset, hr]
  | window w =>
    rcases hr : w.reg.genoffset with _ | o
    · simp [is_simple_entry, hr] at hs
    · simp [read_genoffset, entry_abs_offset, hr]
  | reserved n => simp [is_simple_entry] at hs
  | skipto n => simp [is_simple_entry] at hs
  | sameaddr rs => simp [is_simple_entry] at hs
  | multireg mn md gr => simp [is_simple_entry] at hs

theorem map_except_offsets (l : List RegEntry)
    (hs : ∀ e ∈ l, is_simple_entry e = true) :
    map_except read_genoffset l = .ok (l.map entry_abs_offset) := by
  induction l with
  | nil => rfl
  | cons e rest ih =>
    have h1 := read_genoffset_simple e (hs e (by simp))
    have h2 := ih (fun x hx => hs x (by simp [hx]))
    simp [map_except, h1, h2]

theorem int_min_le_left (a b : Int) : int_min a b ≤ a := by
  unfold int_min
  split <;> omega

theorem int_min_le_right (a b : Int) : int_min a b ≤ b := by
  unfold int_min
  split <;> omega

theorem foldl_int_min_le_acc (l : List Int) : ∀ a : Int, l.foldl int_min a ≤ a := by
  induction l with
  | nil => intro a; simp [List.foldl]
  | cons b rest ih =>
    intro a
    simp only [List.foldl]
    exact le_trans (ih (int_min a b)) (int_min_le_left a b)

theorem foldl_int_min_le_mem (l : List Int) : ∀ (a x : Int), x ∈ l → l.foldl int_min a ≤ x := by
  induction l with
  | nil => intro a x hx; simp at hx
  | cons b rest ih =>
    intro a x hx
    rcases List.mem_cons.mp hx with rfl | hx'
    · simp only [List.foldl]
      exact le_trans (foldl_int_min_le_acc rest (int_min a x)) (int_min_le_right a x)
    · simp only [List.foldl]
      exact ih (int_min a b) x hx'

theorem foldl_int_min_le_all (o : Int) (os : List Int) (x : Int) (hx : x ∈ o :: os) :
    os.foldl int_min o ≤ x := by
  rcases List.mem_cons.mp hx with rfl | hx'
  · exact foldl_int_min_le_acc os x
  · exact foldl_int_min_le_mem os o x hx'

theorem generate_register_addr (reg : Reg) (base : Int) (node : XNode) (o : Int)
    (hoff : reg.genoffset = some o)
    (h : generate_register reg base = .ok node) :
    get_child_text node "addressOffset" = some (pyHex (o - base)) := by
  obtain ⟨o', acc, ra, mwv, fns, hoff', hsw, hfs, hnode⟩ := generate_register_ok reg base node h
  rw [hoff] at hoff'
  injection hoff' with ho
  subst ho
  subst hnode
  simp only [get_child_text, child_list]
  rw [show register_texts reg base o (size_of_register reg) acc ra mwv =
      [("name", some reg.name), ("description", some reg.desc)] ++
      ("addressOffset", some (pyHex (o - base))) ::
      [("size", (size_of_register reg).map (fun n => toString n)),
       ("mask", reg.genbitsused.map pyHex),
       ("resetValue", reg.genresval.map pyHex),
       ("resetMask", reg.genresmask.map pyHex),
       ("access", acc.map access_text),
       ("readAction", ra.map readAction_text),
       ("modifiedWriteValues", mwv.map mwv_text)] from rfl]
  rw [find_child_opt "addressOffset" _ _ _ fns
    (not_mem_map_fst _ _ (by simp)) (not_mem_map_fst _ _ (by simp))
    (generate_all_fields_find _ _ _ hfs _ (by decide))]
  simp [node_text]

theorem find_child_append (t : String) (a b : List XNode) :
    find_child t (a ++ b) =
      (match find_child t a with
       | some n => some n
       | none => find_child t b) := by
  induction a with
  | nil => simp [find_child]
  | cons x rest ih =>
    cases x with
    | elem tg att txt c =>
      by_cases htg : tg = t
      · subst htg
        simp [find_child]
      · simp [find_child, htg, ih]
    | comment s => simp [find_child, ih]

theorem generate_dim_register_addr (w : Window) (base : Int) (node : XNode) (o : Int)
    (hoff : w.reg.genoffset = some o)
    (h : generate_dim_register w base = .ok node) :
    get_child_text node "addressOffset" = some (pyHex (o - base)) := by
  obtain ⟨o', acc, ra, mwv, fns, hoff', hsw, hfs, hnode⟩ := generate_dim_register_ok w base node h
  rw [hoff] at hoff'
  injection hoff' with ho
  subst ho
  subst hnode
  simp only [get_child_text, child_list]
  rw [show (register_texts w.reg base o (size_of_register w.reg) acc ra mwv).tail =
      [("description", some w.reg.desc)] ++
      ("addressOffset", some (pyHex (o - base))) ::
      [("size", (size_of_register w.reg).map (fun n => toString n)),
       ("mask", w.reg.genbitsused.map pyHex),
       ("resetValue", w.reg.genresval.map pyHex),
       ("resetMask", w.reg.genresmask.map pyHex),
       ("access", acc.map access_text),
       ("readAction", ra.map readAction_text),
       ("modifiedWriteValues", mwv.map mwv_text)] from rfl]
  rw [show find_child "addressOffset"
      (XNode.elem "name" [] (some (append_pct_s w.reg.name)) [] ::
        ((text_children
          ([("description", some w.reg.desc)] ++
            ("addressOffset", some (pyHex (o - base))) ::
            [("size", (size_of_register w.reg).map (fun n => toString n)),
             ("mask", w.reg.genbitsused.map pyHex),
             ("resetValue", w.reg.genresval.map pyHex),
             ("resetMask", w.reg.genresmask.map pyHex),
             ("access", acc.map access_text),
             ("readAction", ra.map readAction_text),
             ("modifiedWriteValues", mwv.map mwv_text)]) ++ fns) ++
          text_children
            [("dim", some (toString w.items)),
             ("dimIncrement", some (pyHex ((w.genvalidbits / 8 : Nat) : Int)))])) =
      find_child "addressOffset"
        ((text_children
          ([("description", some w.reg.desc)] ++
            ("addressOffset", some (pyHex (o - base))) ::
            [("size", (size_of_register w.reg).map (fun n => toString n)),
             ("mask", w.reg.genbitsused.map pyHex),
             ("resetValue", w.reg.genresval.map pyHex),
             ("resetMask", w.reg.genresmask.map pyHex),
             ("access", acc.map access_text),
             ("readAction", ra.map readAction_text),
             ("modifiedWriteValues", mwv.map mwv_text)]) ++ fns) ++
          text_children
            [("dim", some (toString w.items)),
             ("dimIncrement", some (pyHex ((w.genvalidbits / 8 : Nat) : Int)))])
      from by simp [find_child]]
  rw [List.append_assoc, find_child_opt "addressOffset" _ _ _ _
    (not_mem_map_fst _ _ (by simp)) (not_mem_map_fst _ _ (by simp)) ?_]
  · simp [node_text]
  · rw [find_child_append]
    rw [generate_all_fields_find _ _ _ hfs _ (by decide)]
    simp [text_children, find_child]

theorem simple_entries_nodes :
    ∀ (l : List RegEntry) (b : Int) (ns : List XNode),
      (∀ e ∈ l, is_simple_entry e = true) →
      generate_all_registers l b = .ok ns →
      ns.length = l.length ∧
      ∀ i, i < l.length →
        get_child_text (ns.getD i (.comment "")) "addressOffset" =
          some (pyHex (entry_abs_offset (l.getD i (.reserved 0)) - b))
  | [], b, ns, hs, h => by
    rw [show generate_all_registers [] b = Except.ok [] from rfl] at h
    simp only [Except.ok.injEq] at h
    subst h
    exact ⟨rfl, by intro i hi; simp at hi⟩
  | e :: rest, b, ns, hs, h => by
    have hse := hs e (by simp)
    have hsr : ∀ x ∈ rest, is_simple_entry x = true := fun x hx => hs x (by simp [hx])
    rw [show generate_all_registers (e :: rest) b =
        (match generate_entry e b with
         | .error er => .error er
         | .ok ns1 =>
           match generate_all_registers rest b with
           | .error er => .error er
           | .ok more => .ok (ns1 ++ more)) from rfl] at h
    cases hge : generate_entry e b with
    | error er => rw [hge] at h; simp at h
    | ok ns1 =>
      rw [hge] at h
      cases hgr : generate_all_registers rest b with
      | error er => rw [hgr] at h; simp at h
      | ok more =>
        rw [hgr] at h
        simp only [Except.ok.injEq] at h
        subst h
        obtain ⟨hlen, hrest⟩ := simple_entries_nodes rest b more hsr hgr
        have hone : ∃ n, ns1 = [n] ∧
            get_child_text n "addressOffset" = some (pyHex (entry_abs_offset e - b)) := by
          cases e with
          | plain r =>
            rcases hro : r.genoffset with _ | o
            · simp [is_simple_entry, hro] at hse
            · rw [show generate_entry (.plain r) b =
                  (match generate_register r b with
                   | .error er => .error er
                   | .ok n => .ok [n]) from rfl] at hge
              cases hgg : generate_register r b with
              | error er => rw [hgg] at hge; simp at hge
              | ok n =>
                rw [hgg] at hge
                simp only [Except.ok.injEq] at hge
                refine ⟨n, hge.symm, ?_⟩
                rw [show entry_abs_offset (.plain r) = o from by
                  simp [entry_abs_offset, hro]]
                exact generate_register_addr r b n o hro hgg
          | window w =>
            rcases hro : w.reg.genoffset with _ | o
            · simp [is_simple_entry, hro] at hse
            · rw [show generate_entry (.window w) b =
                  (match generate_dim_register w b with
                   | .error er => .error er
                   | .ok n => .ok [n]) from rfl] at hge
              cases hgg : generate_dim_register w b with
              | error er => rw [hgg] at hge; simp at hge
              | ok n =>
                rw [hgg] at hge
                simp only [Except.ok.injEq] at hge
                refine ⟨n, hge.symm, ?_⟩
                rw [show entry_abs_offset (.window w) = o from by
                  simp [entry_abs_offset, hro]]
                exact generate_dim_register_addr w b n o hro hgg
          | reserved n => simp [is_simple_entry] at hse
          | skipto n => simp [is_simple_entry] at hse
          | sameaddr rs => simp [is_simple_entry] at hse
          | multireg mn md gr => simp [is_simple_entry] at hse
        obtain ⟨n, hn1, haddr⟩ := hone
        subst hn1
        refine ⟨by simp [hlen], ?_⟩
        intro i hi
        cases i with
        | zero => simpa [List.getD_cons_zero] using haddr
        | succ j =>
          have hj : j < rest.length := by simpa using hi
          simpa [List.getD_cons_succ] using hrest j hj

theorem getD_cons3 (a b c : XNode) (kids : List XNode) (i : Nat) (d : XNode) :
    (a :: b :: c :: kids).getD (3 + i) d = kids.getD i d := by
  rw [Nat.add_comm]
  simp [List.getD_cons_succ]

theorem getD_mem_of_lt {α : Type} (l : List α) (i : Nat) (d : α) (h : i < l.length) :
    l.getD i d ∈ l := by
  induction l generalizing i with
  | nil => simp at h
  | cons x rest ih =>
    cases i with
    | zero => simp [List.getD_cons_zero]
    | succ j =>
      have hj : j < rest.length := by simpa using h
      simp only [List.getD_cons_succ]
      exact List.mem_cons_of_mem _ (ih j hj)

theorem generate_entry_multireg (mn md : String) (gr : List RegEntry) (base : Int) :
    generate_entry (.multireg mn md gr) base =
      (match generate_cluster ⟨mn, md, gr⟩ base with
       | .error e => .error e
       | .ok n => .ok [n]) := by
  rw [show generate_entry (.multireg mn md gr) base =
      (if base ≠ 0 then .error .nestedMultireg
       else match map_except read_genoffset gr with
         | .error e => .error e
         | .ok [] => .error .valueErrorEmptyMin
         | .ok (o :: os) =>
           match generate_all_registers gr (os.foldl int_min o) with
           | .error e => .error e
           | .ok kids => .ok [build_cluster mn md (os.foldl int_min o) kids]) from rfl]
  unfold generate_cluster
  by_cases hb : base ≠ 0
  · rw [if_pos hb, if_pos hb]
  · rw [if_neg hb, if_neg hb]
    cases hofs : map_except read_genoffset gr with
    | error e => rfl
    | ok offs =>
      cases offs with
      | nil => rfl
      | cons o os =>
        show (match generate_all_registers gr (os.foldl int_min o) with
              | Except.error e => Except.error e
              | Except.ok kids =>
                Except.ok [build_cluster mn md (os.foldl int_min o) kids]) =
            (match (match generate_all_registers gr (os.foldl int_min o) with
                    | Except.error e => Except.error e
                    | Except.ok kids =>
                      Except.ok (build_cluster mn md (os.foldl int_min o) kids)) with
              | Except.error e => Except.error e
              | Except.ok n => Except.ok [n])
        cases hgk : generate_all_registers gr (os.foldl int_min o) with
        | error e => rfl
        | ok kids => rfl

theorem generate_cluster_step (multi : Multireg) (o : Int) (os : List Int)
    (hofs : map_except read_genoffset multi.genregs = .ok (o :: os)) :
    generate_cluster multi 0 =
      (match generate_all_registers multi.genregs (os.foldl int_min o) with
       | .error e => .error e
       | .ok kids => .ok (build_cluster multi.name multi.desc (os.foldl int_min o) kids)) := by
  unfold generate_cluster
  rw [if_neg (by simp), hofs]

/-- C3: a multireg compiled at the top level yields a cluster whose
address offset is the minimum absolute member offset (with window members
unwrapped), and whose member registers follow the three text children in
order, each emitted with relative offset equal to its absolute offset
minus that minimum, which is never negative. -/
theorem C3_cluster_min_offsets (multi : Multireg) (node : XNode)
    (hs : ∀ e ∈ multi.genregs, is_simple_entry e = true)
    (hne : multi.genregs ≠ [])
    (h : generate_cluster multi 0 = .ok node) :
    get_child_text node "addressOffset" = some (pyHex (cluster_min multi)) ∧
    (child_list node).length = 3 + multi.genregs.length ∧
    ∀ i, i < multi.genregs.length →
      get_child_text ((child_list node).getD (3 + i) (.comment "")) "addressOffset" =
        some (pyHex
          (entry_abs_offset (multi.genregs.getD i (.reserved 0)) - cluster_min multi)) ∧
      cluster_min multi ≤ entry_abs_offset (multi.genregs.getD i (.reserved 0)) := by
  rcases hmap : multi.genregs.map entry_abs_offset with _ | ⟨o, os⟩
  · exact absurd (List.map_eq_nil_iff.mp hmap) hne
  · rw [generate_cluster_step multi o os
      (by rw [map_except_offsets multi.genregs hs, hmap])] at h
    have hcm : cluster_min multi = os.foldl int_min o := by
      simp [cluster_min, hmap]
    cases hgr : generate_all_registers multi.genregs (os.foldl int_min o) with
    | error er => rw [hgr] at h; simp at h
    | ok kids =>
      rw [hgr] at h
      simp only [Except.ok.injEq] at h
      subst h
      obtain ⟨hlen, haddr⟩ := simple_entries_nodes multi.genregs _ kids hs hgr
      have hmem : ∀ i, i < multi.genregs.length →
          entry_abs_offset (multi.genregs.getD i (.reserved 0)) ∈ o :: os := by
        intro i hi
        rw [← hmap]
        exact List.mem_map_of_mem entry_abs_offset (getD_mem_of_lt _ i _ hi)
      refine ⟨?_, ?_, ?_⟩
      · rw [hcm]
        simp [build_cluster, extend_node, svd_node, get_child_text, child_list,
          text_children, find_child, node_text]
      · simp [build_cluster, extend_node, svd_node, child_list, text_children, hlen]
        omega
      · intro i hi
        constructor
        · rw [hcm]
          rw [show child_list (build_cluster multi.name multi.desc (os.foldl int_min o) kids) =
              XNode.elem "name" [] (some multi.name) [] ::
              XNode.elem "description" [] (some multi.desc) [] ::
              XNode.elem "addressOffset" [] (some (pyHex (os.foldl int_min o))) [] ::
              kids from rfl]
          rw [getD_cons3]
          exact haddr i hi
        · rw [hcm]
          exact foldl_int_min_le_all o os _ (hmem i hi)

/-- Witness for C3 at members with absolute offsets 0x10, 0x14 and 0x18:
the cluster offset is 0x10 and the member offsets are 0x0, 0x4 and 0x8. -/
theorem C3_cluster_min_offsets_witness :
    get_child_text nodeC3 "addressOffset" = some "0x10" ∧
    get_child_text ((child_list nodeC3).getD 3 (.comment "")) "addressOffset" = some "0x0" ∧
    get_child_text ((child_list nodeC3).getD 4 (.comment "")) "addressOffset" = some "0x4" ∧
    get_child_text ((child_list nodeC3).getD 5 (.comment "")) "addressOffset" = some "0x8" ∧
    cluster_min multiC3 ≤ entry_abs_offset (multiC3.genregs.getD 0 (.reserved 0)) := by
  have h := C3_cluster_min_offsets multiC3 nodeC3 (by decide) (by simp [multiC3]) rfl
  have h0 := h.2.2 0 (by decide)
  have h1 := h.2.2 1 (by decide)
  have h2 := h.2.2 2 (by decide)
  exact ⟨h.1, h0.1, h1.1, h2.1, h0.2⟩

theorem read_genoffset_err_kind (e : RegEntry) (er : SvdError)
    (h : read_genoffset e = .error er) : offset_scan_err_kind er = true := by
  cases e with
  | plain r =>
    rcases hr : r.genoffset with _ | o
    · rw [show read_genoffset (.plain r) = .error (.missingOffset (.plain r)) from by
        simp [read_genoffset, hr]] at h
      injection h with h'
      subst h'
      rfl
    · rw [show read_genoffset (.plain r) = .ok o from by simp [read_genoffset, hr]] at h
      exact absurd h (by simp)
  | window w =>
    rcases hr : w.reg.genoffset with _ | o
    · rw [show read_genoffset (.window w) = .error (.keyError "genoffset") from by
        simp [read_genoffset, hr]] at h
      injection h with h'
      subst h'
      rfl
    · rw [show read_genoffset (.window w) = .ok o from by simp [read_genoffset, hr]] at h
      exact absurd h (by simp)
  | reserved n =>
    injection h with h'
    subst h'
    rfl
  | skipto n =>
    injection h with h'
    subst h'
    rfl
  | sameaddr rs =>
    injection h with h'
    subst h'
    rfl
  | multireg mn md gr =>
    injection h with h'
    subst h'
    rfl

theorem map_except_offsets_err (l : List RegEntry) (hm : mem_has_multireg l = true) :
    ∃ er, map_except read_genoffset l = .error er ∧ offset_scan_err_kind er = true := by
  induction l with
  | nil => simp [mem_has_multireg] at hm
  | cons e rest ih =>
    cases he : read_genoffset e with
    | error er =>
      exact ⟨er, by simp [map_except, he], read_genoffset_err_kind e er he⟩
    | ok o =>
      have hrest : mem_has_multireg rest = true := by
        cases e with
        | multireg mn md gr => exact absurd he (by simp [read_genoffset])
        | plain r => simpa [mem_has_multireg] using hm
        | window w => simpa [mem_has_multireg] using hm
        | reserved n => simpa [mem_has_multireg] using hm
        | skipto n => simpa [mem_has_multireg] using hm
        | sameaddr rs => simpa [mem_has_multireg] using hm
      obtain ⟨er, h1, h2⟩ := ih hrest
      exact ⟨er, by simp [map_except, he, h1], h2⟩

/-- C4 (amended): a multireg inside a non-zero base fails with the
nested-multireg error, but a multireg whose member list contains another
multireg never reaches that check when compiled at the top level: the
member-offset scan fails first, with the structured-dump or key-lookup
error, before any output is produced. -/
theorem C4_nested_multireg :
    (∀ (multi : Multireg) (base : Int), base ≠ 0 →
      generate_cluster multi base = .error .nestedMultireg) ∧
    (∀ multi : Multireg, mem_has_multireg multi.genregs = true →
      is_ok (generate_cluster multi 0) = false ∧
      is_nested_err (generate_cluster multi 0) = false ∧
      is_offset_scan_err (generate_cluster multi 0) = true) := by
  constructor
  · intro multi base hb
    unfold generate_cluster
    rw [if_pos hb]
  · intro multi hm
    obtain ⟨er, h1, h2⟩ := map_except_offsets_err multi.genregs hm
    have hc : generate_cluster multi 0 = .error er := by
      unfold generate_cluster
      rw [if_neg (by simp), h1]
    rw [hc]
    refine ⟨rfl, ?_, by simp [is_offset_scan_err, h2]⟩
    cases er with
    | nestedMultireg => simp [offset_scan_err_kind] at h2
    | keyError k => rfl
    | missingOffset e => rfl
    | valueErrorEmptyMin => rfl
    | attributeError w => rfl

/-- Witness for C4 (amended): a cluster invoked at base 1 fails with the
nesting error, and the concrete multireg-in-multireg fails with the
offset-scan error instead. -/
theorem C4_nested_multireg_witness :
    generate_cluster multiC3 1 = .error .nestedMultireg ∧
    (is_ok (generate_cluster multiC4 0) = false ∧
     is_nested_err (generate_cluster multiC4 0) = false ∧
     is_offset_scan_err (generate_cluster multiC4 0) = true) :=
  ⟨C4_nested_multireg.1 multiC3 1 (by decide), C4_nested_multireg.2 multiC4 rfl⟩

/-- Counterexample for C4 as stated: the multireg containing another
multireg fails with the structured-dump offset error on the inner entry,
not with the nested-multireg error the claim requires. -/
theorem C4_counterexample :
    generate_cluster multiC4 0 =
      .error (.missingOffset (.multireg "INNER" "id" [.plain regC3b])) ∧
    is_nested_err (generate_cluster multiC4 0) = false :=
  ⟨rfl, rfl⟩

theorem trees_ok_append (a b : List XNode) :
    trees_ok (a ++ b) = (trees_ok a && trees_ok b) := by
  induction a with
  | nil => simp [trees_ok]
  | cons x rest ih => simp [trees_ok, ih, Bool.and_assoc]

theorem trees_ok_text_children (l : List (String × Option String)) :
    trees_ok (text_children l) = true := by
  induction l with
  | nil => rfl
  | cons p rest ih =>
    obtain ⟨t, v⟩ := p
    cases v <;> simp [text_children, trees_ok, tree_ok, ih]

theorem tree_ok_svd_node (tag : String) (texts : List (String × Option String)) :
    tree_ok (svd_node tag texts) = true := by
  simp [svd_node, tree_ok, trees_ok_text_children]

theorem generate_field_tree_ok (f : Field) (n : XNode)
    (h : generate_field f = .ok n) : tree_ok n = true := by
  revert h
  unfold generate_field
  cases hsw : sw_access_modes f.swaccess with
  | error e => intro h; exact absurd h (by simp)
  | ok trip =>
    obtain ⟨acc, ra, mwv⟩ := trip
    intro h
    simp only [Except.ok.injEq] at h
    subst h
    exact tree_ok_svd_node _ _

theorem map_except_fields_trees_ok :
    ∀ (l : List Field) (ns : List XNode),
      map_except generate_field l = .ok ns → trees_ok ns = true
  | [], ns, h => by
    simp only [map_except, Except.ok.injEq] at h
    subst h
    rfl
  | f :: rest, ns, h => by
    revert h
    simp only [map_except]
    cases hf : generate_field f with
    | error e => intro h; exact absurd h (by simp)
    | ok n =>
      cases hr : map_except generate_field rest with
      | error e => intro h; exact absurd h (by simp)
      | ok ms =>
        intro h
        simp only [Except.ok.injEq] at h
        subst h
        simp [trees_ok, generate_field_tree_ok f n hf,
          map_except_fields_trees_ok rest ms hr]

theorem generate_all_fields_trees_ok (fl : Bool) (fs : Option (List Field))
    (fns : List XNode) (h : generate_all_fields fl fs = .ok fns) :
    trees_ok fns = true := by
  match fl, fs with
  | false, some l =>
    rw [show generate_all_fields false (some l) =
        (match map_except generate_field l with
         | .error e => .error e
         | .ok fns' => .ok [extend_node (svd_node "fields" []) fns']) from rfl] at h
    cases hm : map_except generate_field l with
    | error e => rw [hm] at h; simp at h
    | ok fns' =>
      rw [hm] at h
      simp only [Except.ok.injEq] at h
      subst h
      simp [trees_ok, tree_ok, extend_node, svd_node, text_children,
        map_except_fields_trees_ok l fns' hm]
  | true, none =>
    rw [show generate_all_fields true none = Except.ok [] from rfl] at h
    simp only [Except.ok.injEq] at h
    subst h
    rfl
  | true, some l =>
    rw [show generate_all_fields true (some l) = Except.ok [] from rfl] at h
    simp only [Except.ok.injEq] at h
    subst h
    rfl
  | false, none =>
    rw [show generate_all_fields false none = Except.ok [] from rfl] at h
    simp only [Except.ok.injEq] at h
    subst h
    rfl

theorem generate_register_tree_ok (reg : Reg) (base : Int) (node : XNode)
    (h : generate_register reg base = .ok node) : tree_ok node = true := by
  obtain ⟨o, acc, ra, mwv, fns, hoff, hsw, hfs, hnode⟩ := generate_register_ok reg base node h
  subst hnode
  simp [tree_ok, trees_ok_append, trees_ok_text_children,
    generate_all_fields_trees_ok _ _ _ hfs]

theorem generate_dim_register_tree_ok (w : Window) (base : Int) (node : XNode)
    (h : generate_dim_register w base = .ok node) : tree_ok node = true := by
  obtain ⟨o, acc, ra, mwv, fns, hoff, hsw, hfs, hnode⟩ := generate_dim_register_ok w base node h
  subst hnode
  simp [tree_ok, trees_ok, trees_ok_append, trees_ok_text_children,
    generate_all_fields_trees_ok _ _ _ hfs]

mutual

theorem trees_ok_gar : ∀ (l : List RegEntry) (b : Int) (ns : List XNode),
    generate_all_registers l b = .ok ns → trees_ok ns = true
  | [], b, ns, h => by
    rw [show generate_all_registers [] b = Except.ok [] from rfl] at h
    simp only [Except.ok.injEq] at h
    subst h
    rfl
  | e :: rest, b, ns, h => by
    rw [show generate_all_registers (e :: rest) b =
        (match generate_entry e b with
         | .error er => .error er
         | .ok ns1 =>
           match generate_all_registers rest b with
           | .error er => .error er
           | .ok more => .ok (ns1 ++ more)) from rfl] at h
    cases hge : generate_entry e b with
    | error er => rw [hge] at h; simp at h
    | ok ns1 =>
      rw [hge] at h
      cases hgr : generate_all_registers rest b with
      | error er => rw [hgr] at h; simp at h
      | ok more =>
        rw [hgr] at h
        simp only [Except.ok.injEq] at h
        subst h
        rw [trees_ok_append, trees_ok_ge e b ns1 hge, trees_ok_gar rest b more hgr]
        rfl

theorem trees_ok_ge : ∀ (e : RegEntry) (b : Int) (ns : List XNode),
    generate_entry e b = .ok ns → trees_ok ns = true
  | .reserved n, b, ns, h => by
    rw [show generate_entry (.reserved n) b = Except.ok [] from rfl] at h
    simp only [Except.ok.injEq] at h
    subst h
    rfl
  | .skipto n, b, ns, h => by
    rw [show generate_entry (.skipto n) b = Except.ok [] from rfl] at h
    simp only [Except.ok.injEq] at h
    subst h
    rfl
  | .window w, b, ns, h => by
    rw [show generate_entry (.window w) b =
        (match generate_dim_register w b with
         | .error er => .error er
         | .ok n => .ok [n]) from rfl] at h
    cases hgw : generate_dim_register w b with
    | error er => rw [hgw] at h; simp at h
    | ok n =>
      rw [hgw] at h
      simp only [Except.ok.injEq] at h
      subst h
      simp [trees_ok, generate_dim_register_tree_ok w b n hgw]
  | .sameaddr rs, b, ns, h => by
    rw [show generate_entry (.sameaddr rs) b = generate_all_registers rs b from rfl] at h
    exact trees_ok_gar rs b ns h
  | .plain r, b, ns, h => by
    rw [show generate_entry (.plain r) b =
        (match generate_register r b with
         | .error er => .error er
         | .ok n => .ok [n]) from rfl] at h
    cases hgg : generate_register r b with
    | error er => rw [hgg] at h; simp at h
    | ok n =>
      rw [hgg] at h
      simp only [Except.ok.injEq] at h
      subst h
      simp [trees_ok, generate_register_tree_ok r b n hgg]
  | .multireg mn md gr, b, ns, h => by
    rcases eq_or_ne b 0 with rfl | hb
    · cases hofs : map_except read_genoffset gr with
      | error er =>
        rw [show generate_entry (.multireg mn md gr) 0 = .error er from by
          rw [show generate_entry (.multireg mn md gr) 0 =
              (if (0 : Int) ≠ 0 then .error .nestedMultireg
               else match map_except read_genoffset gr with
                 | .error e => .error e
                 | .ok [] => .error .valueErrorEmptyMin
                 | .ok (o :: os) =>
                   match generate_all_registers gr (os.foldl int_min o) with
                   | .error e => .error e
                   | .ok kids => .ok [build_cluster mn md (os.foldl int_min o) kids])
            from rfl, if_neg (by simp), hofs]] at h
        simp at h
      | ok offs =>
        cases offs with
        | nil =>
          rw [show generate_entry (.multireg mn md gr) 0 = .error .valueErrorEmptyMin from by
            rw [show generate_entry (.multireg mn md gr) 0 =
                (if (0 : Int) ≠ 0 then .error .nestedMultireg
                 else match map_except read_genoffset gr with
                   | .error e => .error e
                   | .ok [] => .error .valueErrorEmptyMin
                   | .ok (o :: os) =>
                     match generate_all_registers gr (os.foldl int_min o) with
                     | .error e => .error e
                     | .ok kids => .ok [build_cluster mn md (os.foldl int_min o) kids])
              from rfl, if_neg (by simp), hofs]] at h
          simp at h
        | cons o os =>
          rw [show generate_entry (.multireg mn md gr) 0 =
              (match generate_all_registers gr (os.foldl int_min o) with
               | .error e => .error e
               | .ok kids => .ok [build_cluster mn md (os.foldl int_min o) kids]) from by
            rw [show generate_entry (.multireg mn md gr) 0 =
                (if (0 : Int) ≠ 0 then .error .nestedMultireg
                 else match map_except read_genoffset gr with
                   | .error e => .error e
                   | .ok [] => .error .valueErrorEmptyMin
                   | .ok (o :: os) =>
                     match generate_all_registers gr (os.foldl int_min o) with
                     | .error e => .error e
                     | .ok kids => .ok [build_cluster mn md (os.foldl int_min o) kids])
              from rfl, if_neg (by simp), hofs]] at h
          cases hgk : generate_all_registers gr (os.foldl int_min o) with
          | error er => rw [hgk] at h; simp at h
          | ok kids =>
            rw [hgk] at h
            simp only [Except.ok.injEq] at h
            subst h
            have hk := trees_ok_gar gr (os.foldl int_min o) kids hgk
            simp [trees_ok, tree_ok, build_cluster, extend_node, svd_node,
              trees_ok_append, trees_ok_text_children, hk]
    · rw [show generate_entry (.multireg mn md gr) b =
          (if b ≠ 0 then .error .nestedMultireg
           else match map_except read_genoffset gr with
             | .error e => .error e
             | .ok [] => .error .valueErrorEmptyMin
             | .ok (o :: os) =>
               match generate_all_registers gr (os.foldl int_min o) with
               | .error e => .error e
               | .ok kids => .ok [build_cluster mn md (os.foldl int_min o) kids])
        from rfl, if_pos hb] at h
      simp at h

end

theorem interrupts_from_trees_ok : ∀ (n : Nat) (l : List Irq),
    trees_ok (interrupts_from n l) = true
  | _, [] => rfl
  | n, irq :: rest => by
    simp [interrupts_from, trees_ok, tree_ok_svd_node,
      interrupts_from_trees_ok (n + 1) rest]

theorem generate_all_interrupts_trees_ok (irqs : Option (List Irq)) :
    trees_ok (generate_all_interrupts irqs) = true := by
  cases irqs with
  | none => rfl
  | some l => simpa [generate_all_interrupts] using interrupts_from_trees_ok 0 l

theorem generate_peripheral_tree_ok (m : TopModule) (ip : Ip) (node : XNode)
    (h : generate_peripheral m ip = .ok node) : tree_ok node = true := by
  revert h
  unfold generate_peripheral
  cases hgr : generate_all_registers ip.registers 0 with
  | error e => intro h; exact absurd h (by simp)
  | ok regnodes =>
    intro h
    simp only [Except.ok.injEq] at h
    subst h
    have hr := trees_ok_gar ip.registers 0 regnodes hgr
    simp [extend_node, svd_node, tree_ok, trees_ok, trees_ok_append,
      trees_ok_text_children, generate_all_interrupts_trees_ok, hr]

theorem peripherals_map_trees_ok :
    ∀ (modules : List TopModule) (ips : List (String × Ip)) (ns : List XNode),
      peripherals_map modules ips = .ok ns → trees_ok ns = true
  | [], ips, ns, h => by
    simp only [peripherals_map, Except.ok.injEq] at h
    subst h
    rfl
  | m :: rest, ips, ns, h => by
    revert h
    simp only [peripherals_map]
    cases hip : lookup_ip ips m.mtype with
    | error e => intro h; exact absurd h (by simp)
    | ok ip =>
      intro h
      cases hp : generate_peripheral m ip with
      | error e => simp [hp] at h
      | ok p =>
        cases hr : peripherals_map rest ips with
        | error e => simp [hp, hr] at h
        | ok more =>
          simp only [hp, hr, Except.ok.injEq] at h
          subst h
          simp [trees_ok, generate_peripheral_tree_ok m ip p hp,
            peripherals_map_trees_ok rest ips more hr]

theorem generate_peripherals_tree_ok (modules : List TopModule)
    (ips : List (String × Ip)) (node : XNode)
    (h : generate_peripherals modules ips = .ok node) : tree_ok node = true := by
  revert h
  unfold generate_peripherals
  cases hm : peripherals_map modules ips with
  | error e => intro h; exact absurd h (by simp)
  | ok ns =>
    intro h
    simp only [Except.ok.injEq] at h
    subst h
    simp [extend_node, svd_node, tree_ok, text_children,
      peripherals_map_trees_ok modules ips ns hm]

theorem generate_cpu_tree_ok : tree_ok generate_cpu = true := rfl

/-- C5 (amended): no node of the assembled device tree carries both text
content and child elements; however the strict either/or shape fails,
since nodes with neither — empty containers such as an empty fields or
registers node — can occur (see the counterexample). -/
theorem C5_no_text_and_children (top : TopCfg) (ips : List (String × Ip))
    (version description : String) (t : XNode)
    (h : generate_device top ips version description = .ok t) :
    tree_ok t = true := by
  revert h
  unfold generate_device
  cases hp : generate_peripherals top.modules ips with
  | error e => intro h; exact absurd h (by simp)
  | ok ps =>
    intro h
    simp only [Except.ok.injEq] at h
    subst h
    have hps := generate_peripherals_tree_ok top.modules ips ps hp
    simp [extend_node, tree_ok, trees_ok, trees_ok_append,
      trees_ok_text_children, generate_cpu, svd_node, text_children, hps]

/-- Witness for C5 (amended) at a concrete device. -/
theorem C5_no_text_and_children_witness : tree_ok treeC5 = true :=
  C5_no_text_and_children topC5 [("uart", ipC5)] "1.0" "svd of chip" treeC5 rfl

/-- Counterexample for C5 as stated: a valid model — a register whose
field list is present but empty — assembles to a tree containing a node
that is neither a leaf nor a parent (the empty fields container), so the
either/or shape does not hold of every node. -/
theorem C5_counterexample :
    generate_device topC5 [("uart", ipC5)] "1.0" "svd of chip" = .ok treeC5 ∧
    tree_lp treeC5 = false :=
  ⟨rfl, rfl⟩

end Svdgen
